import Mathlib

/-!
# Discover-Monitor: a shallow embedding of the crawling/extraction core

This file embeds the core of `src/discover_monitor/scraper.py` in Lean 4 and
proves properties of its specification against that embedding.

Modelling conventions:
* Python `datetime` objects become the `DateTime` structure; `datetime.strptime`
  is modelled for exactly the directives the source's format strings use, and
  `datetime.fromisoformat` for its pre-3.11 grammar (microseconds omitted:
  no input in this development carries them).
* XML/HTML parsing by `xml.etree.ElementTree` / BeautifulSoup is abstracted
  into structured views of the fetched document (`IndexDoc`, `HtmlPage`,
  `Body`): each field of a view is the result the corresponding library
  lookup (`findall`, `soup.find`, ...) would produce on the raw text.  The
  repository's own logic over those lookup results is translated statement
  by statement.
* The HTTP session becomes `Remote : String → Option Response`; `none`
  models a request-level failure (`requests.RequestException`, which the
  source maps to an empty result or `None`).
* The CSV store becomes `FileState := Option (List Article)`; `none` models
  an absent file.  A possibly corrupted file is modelled separately for
  `load_existing_data` as `Option (Except String (List Article))`, where
  `Except.error` is the exception `pandas.read_csv` raises.
* Thread pools (`ThreadPoolExecutor` + `as_completed`) are sequentialised in
  submission order; the claims proved here do not depend on completion order.
* `fetch_sitemap` is recursive through the network with no structural bound,
  so the embedding takes explicit fuel; `none` marks exhausted fuel, i.e. a
  run of the Python code still recursing past that depth.
-/

/-- A parsed `datetime.datetime`: the `tz` field is the UTC offset in
minutes when the object is timezone-aware (`%z` matched), `none` for a
naive datetime. -/
structure DateTime where
  year : Nat
  month : Nat
  day : Nat
  hour : Nat
  minute : Nat
  second : Nat
  tz : Option Int := none
deriving Repr, DecidableEq

/-- Gregorian leap-year rule, as `datetime` validates days. -/
def isLeapYear (y : Nat) : Bool :=
  (y % 4 == 0 && y % 100 != 0) || y % 400 == 0

/-- Days in a month, used by `datetime` to validate a parsed day. -/
def daysInMonth (y m : Nat) : Nat :=
  if m == 2 then (if isLeapYear y then 29 else 28)
  else if m == 4 || m == 6 || m == 9 || m == 11 then 30
  else 31

/-- Python `str.strip()`.  (Implemented over the character list so that the
kernel can evaluate it; `String.trim` does not reduce.) -/
def pyStrip (s : String) : String :=
  ⟨((s.toList.dropWhile Char.isWhitespace).reverse.dropWhile Char.isWhitespace).reverse⟩

/-- Python `str.lower()` (ASCII, which is all the source compares). -/
def pyLower (s : String) : String :=
  ⟨s.toList.map Char.toLower⟩

/-- Python `str.startswith(pre)`. -/
def pyStarts (s pre : String) : Bool :=
  pre.toList.isPrefixOf s.toList

/-- Python `needle in hay` on strings. -/
def pyContains (hay needle : String) : Bool :=
  go hay.toList
where
  go : List Char → Bool
    | [] => needle.toList.isPrefixOf []
    | c :: cs => needle.toList.isPrefixOf (c :: cs) || go cs

def digitsToNat (ds : List Char) : Nat :=
  ds.foldl (fun acc c => acc * 10 + (c.toNat - '0'.toNat)) 0

/-- Read at most `maxw` leading digits of `s` (at least one), requiring the
value to lie in `lo..hi` — the behaviour of CPython strptime's numeric
directive regexes on the separator-delimited formats the source uses. -/
def parseNum (maxw lo hi : Nat) (s : List Char) : Option (Nat × List Char) :=
  let ds := (s.takeWhile Char.isDigit).take maxw
  if ds.isEmpty then none
  else
    let v := digitsToNat ds
    if lo ≤ v && v ≤ hi then some (v, s.drop ds.length) else none

/-- Exactly four digits, CPython strptime's `%Y`. -/
def parseYear (s : List Char) : Option (Nat × List Char) :=
  let ds := (s.takeWhile Char.isDigit).take 4
  if ds.length == 4 then some (digitsToNat ds, s.drop 4) else none

def lowerPrefixIs (w : String) (s : List Char) : Bool :=
  ((s.take w.length).map Char.toLower) == w.toList

def weekdayAbbrs : List String := ["mon", "tue", "wed", "thu", "fri", "sat", "sun"]

def monthAbbrs : List String :=
  ["jan", "feb", "mar", "apr", "may", "jun", "jul", "aug", "sep", "oct", "nov", "dec"]

/-- `%a`: an abbreviated weekday name, matched case-insensitively and
consumed (strptime ignores its value when a full date is present). -/
def parseWeekday (s : List Char) : Option (List Char) :=
  if weekdayAbbrs.any (fun w => lowerPrefixIs w s) then some (s.drop 3) else none

/-- `%b`: an abbreviated month name, case-insensitive, yielding 1..12. -/
def parseMonthName (s : List Char) : Option (Nat × List Char) :=
  match monthAbbrs.enum.find? (fun p => lowerPrefixIs p.2 s) with
  | some p => some (p.1 + 1, s.drop 3)
  | none => none

/-- `%z`: `Z` or `±HH[:]MM`, yielding the UTC offset in minutes. -/
def parseTz (s : List Char) : Option (Int × List Char) :=
  match s with
  | 'Z' :: rest => some (0, rest)
  | sign :: rest =>
    if sign == '+' || sign == '-' then
      match parseNum 2 0 23 rest with
      | some (h, rest1) =>
        let rest2 := match rest1 with
          | ':' :: r => r
          | r => r
        match parseNum 2 0 59 (rest2.take 2) with
        | some (m, _) =>
          let total : Int := Int.ofNat (h * 60 + m)
          some (if sign == '-' then -total else total, rest2.drop 2)
        | none => none
      | none => none
    else none
  | [] => none

/-- Partial parse state of strptime (CPython defaults: 1900-01-01 00:00:00). -/
structure StrpState where
  year : Nat := 1900
  month : Nat := 1
  day : Nat := 1
  hour : Nat := 0
  minute : Nat := 0
  second : Nat := 0
  tz : Option Int := none
deriving Repr, DecidableEq

/-- One pass over the format string, consuming input: literal characters
match themselves, whitespace in the format matches a run of whitespace,
`%`-directives parse their field. -/
def strptimeAux : List Char → List Char → StrpState → Option (StrpState × List Char)
  | [], input, st => some (st, input)
  | '%' :: d :: fmt, input, st =>
    match d with
    | 'Y' => match parseYear input with
      | some (v, rest) => strptimeAux fmt rest { st with year := v }
      | none => none
    | 'm' => match parseNum 2 1 12 input with
      | some (v, rest) => strptimeAux fmt rest { st with month := v }
      | none => none
    | 'd' => match parseNum 2 1 31 input with
      | some (v, rest) => strptimeAux fmt rest { st with day := v }
      | none => none
    | 'H' => match parseNum 2 0 23 input with
      | some (v, rest) => strptimeAux fmt rest { st with hour := v }
      | none => none
    | 'M' => match parseNum 2 0 59 input with
      | some (v, rest) => strptimeAux fmt rest { st with minute := v }
      | none => none
    | 'S' => match parseNum 2 0 61 input with
      | some (v, rest) => strptimeAux fmt rest { st with second := v }
      | none => none
    | 'z' => match parseTz input with
      | some (v, rest) => strptimeAux fmt rest { st with tz := some v }
      | none => none
    | 'a' => match parseWeekday input with
      | some rest => strptimeAux fmt rest st
      | none => none
    | 'b' => match parseMonthName input with
      | some (v, rest) => strptimeAux fmt rest { st with month := v }
      | none => none
    | _ => none
  | c :: fmt, input, st =>
    if c == ' ' then
      match input with
      | i :: rest =>
        if i.isWhitespace then strptimeAux fmt (rest.dropWhile Char.isWhitespace) st else none
      | [] => none
    else
      match input with
      | i :: rest => if i == c then strptimeAux fmt rest st else none
      | [] => none

/-- `datetime.strptime(s, fmt)`: the whole input must be consumed and the
parsed day must exist in the parsed month (`datetime` construction). -/
def strptime (fmt s : String) : Option DateTime :=
  match strptimeAux fmt.toList s.toList {} with
  | some (st, []) =>
    if st.day ≤ daysInMonth st.year st.month then
      some ⟨st.year, st.month, st.day, st.hour, st.minute, st.second, st.tz⟩
    else none
  | _ => none

/-- The source's ordered list of explicit date formats
(`scraper.py`, `date_formats` inside `_parse_date`). -/
def date_formats : List String :=
  ["%Y-%m-%dT%H:%M:%S%z",
   "%Y-%m-%dT%H:%M:%S",
   "%Y-%m-%d %H:%M:%S",
   "%Y-%m-%d",
   "%d/%m/%Y %H:%M:%S",
   "%d/%m/%Y",
   "%m/%d/%Y %H:%M:%S",
   "%m/%d/%Y",
   "%a, %d %b %Y %H:%M:%S %z",
   "%a, %d %b %Y %H:%M:%S",
   "%a %b %d %H:%M:%S %Y"]

/-- First format of the list that parses, in order (`for fmt in date_formats`). -/
def tryDateFormats (s : String) : List String → Option DateTime
  | [] => none
  | fmt :: rest =>
    match strptime fmt s with
    | some d => some d
    | none => tryDateFormats s rest

/-- `_parse_date` (scraper.py:75-119): empty input is `none`; otherwise the
input is stripped, the explicit formats are tried in order, and on failure
the external `dateutil.parser.parse` — abstracted as the `dateutil`
argument — is consulted; a final failure is `none`, never an error. -/
def _parse_date (dateutil : String → Option DateTime) (date_str : String) : Option DateTime :=
  if date_str == "" then none
  else
    let s := pyStrip date_str
    match tryDateFormats s date_formats with
    | some d => some d
    | none => dateutil s

/-- The `Article` dataclass (scraper.py:47-58), field for field.  The
dataclass's `section` field is called `sect` here, `section` being a Lean
keyword. -/
structure Article where
  url : String
  title : String
  sect : String
  description : String
  source : String
  is_own_site : Bool
  published_date : Option DateTime := none
  last_modified : Option DateTime := none
  image_url : Option String := none
deriving Repr, DecidableEq

/-- A Python value as it lands in the dict produced by `Article.to_dict`. -/
inductive PyVal where
  | str (v : String)
  | bool (v : Bool)
  | null
deriving Repr, DecidableEq

def padNat (width n : Nat) : String :=
  let s := toString n
  ⟨List.replicate (width - s.length) '0' ++ s.toList⟩

/-- `datetime.isoformat()`: `YYYY-MM-DDTHH:MM:SS` plus `±HH:MM` when the
object is timezone-aware. -/
def isoformat (d : DateTime) : String :=
  let base := padNat 4 d.year ++ "-" ++ padNat 2 d.month ++ "-" ++ padNat 2 d.day ++
    "T" ++ padNat 2 d.hour ++ ":" ++ padNat 2 d.minute ++ ":" ++ padNat 2 d.second
  match d.tz with
  | none => base
  | some off =>
    let sign := if off < 0 then "-" else "+"
    let a := off.natAbs
    base ++ sign ++ padNat 2 (a / 60) ++ ":" ++ padNat 2 (a % 60)

/-- `Article.to_dict` (scraper.py:60-73); `now` stands for `datetime.now()`
evaluated at serialization time.  Note the source's tenth key is
`"timestamp"`. -/
def Article.to_dict (now : DateTime) (a : Article) : List (String × PyVal) :=
  [("url", .str a.url),
   ("title", .str a.title),
   ("section", .str a.sect),
   ("description", .str a.description),
   ("source", .str a.source),
   ("is_own_site", .bool a.is_own_site),
   ("published_date", match a.published_date with
     | some d => .str (isoformat d)
     | none => .null),
   ("last_modified", match a.last_modified with
     | some d => .str (isoformat d)
     | none => .null),
   ("image_url", match a.image_url with
     | some s => .str s
     | none => .null),
   ("timestamp", .str (isoformat now))]

/-- The columns a `pandas.DataFrame` built from a list of `Article`
dataclass instances carries (the save path of `monitor_websites` →
`save_articles` passes `Article` objects, not `to_dict` rows): exactly the
dataclass fields, in declaration order. -/
def articleFrameColumns : List String :=
  ["url", "title", "section", "description", "source", "is_own_site",
   "published_date", "last_modified", "image_url"]

/-! ## Sitemap-index parsing (`_parse_sitemap_index`, scraper.py:296-349)

An XML document is abstracted as the list of its `<loc>` elements, each
with the namespace URI it lives in (`""` for none) and its text, in
document order, together with whether `ET.fromstring` accepts the raw
bytes (`wellFormed`).  On a parse failure the source falls back to
BeautifulSoup, which finds every `<loc>` tag regardless of namespace. -/

structure LocEntry where
  ns : String
  text : String
deriving Repr, DecidableEq

structure IndexDoc where
  wellFormed : Bool
  locs : List LocEntry
deriving Repr, DecidableEq

/-- The sitemap namespace URI (`SITEMAP_NS['sitemap']`, scraper.py:39-43). -/
def sitemap_ns : String := "http://www.sitemaps.org/schemas/sitemap/0.9"

/-- The element set the ElementTree branch iterates: namespaced `loc`s
first (`.//sitemap:loc`), else un-namespaced (`.//loc`), else the
wildcard-namespace search (`.//{*}loc`, which matches every `loc`). -/
def selectLocs (locs : List LocEntry) : List LocEntry :=
  let nsLocs := locs.filter (fun l => l.ns == sitemap_ns)
  if !nsLocs.isEmpty then nsLocs
  else
    let plain := locs.filter (fun l => l.ns == "")
    if !plain.isEmpty then plain else locs

/-- `_parse_sitemap_index`: on well-formed XML, each selected `loc` with
non-empty stripped text is kept only when absolute (`http://`/`https://`
prefix; a relative URL is logged and skipped).  On an XML parse error the
BeautifulSoup fallback collects every non-empty stripped `loc` text — with
no absoluteness filter. -/
def _parse_sitemap_index (d : IndexDoc) : List String :=
  if d.wellFormed then
    (selectLocs d.locs).filterMap (fun l =>
      if l.text == "" then none
      else
        let url := pyStrip l.text
        if url == "" then none
        else if pyStarts url "http://" || pyStarts url "https://" then some url
        else none)
  else
    d.locs.filterMap (fun l =>
      if pyStrip l.text == "" then none else some (pyStrip l.text))

/-! ## Article extraction (`extract_article_info`, scraper.py:581-700)

The fetched HTML document is abstracted as `HtmlPage`: each field is the
result of the corresponding BeautifulSoup lookup on the raw text.  An
attribute access guarded by truthiness (`tag.get('content')`) is modelled
as `Option String` that is `some` exactly when the attribute is present
and non-empty. -/

structure MetaTag where
  content : Option String
deriving Repr, DecidableEq

structure DateTag where
  content : Option String
  text : String
deriving Repr, DecidableEq

structure HtmlPage where
  /-- `soup.find('title')`: the tag's stripped text when the tag exists. -/
  titleText : Option String := none
  /-- `soup.find('meta', property='og:title')`. -/
  ogTitle : Option MetaTag := none
  /-- `soup.find('meta', {'name': 'description'})`. -/
  metaDescription : Option MetaTag := none
  /-- `soup.find('meta', {'property': 'og:description'})`. -/
  ogDescription : Option MetaTag := none
  /-- `soup.find('meta', property='og:image')`. -/
  ogImage : Option MetaTag := none
  /-- `soup.find('img', {'src': True})`: the `src` attribute value. -/
  firstImgSrc : Option String := none
  /-- `soup.find(attrs=date_selectors[i])` for the source's nine date
  selectors, in their order. -/
  dateTags : List (Option DateTag) := []
deriving Repr, DecidableEq

/-- Exactly two-digit (`w`-digit) number. -/
def parseFixedNum (w : Nat) (s : List Char) : Option (Nat × List Char) :=
  let ds := (s.takeWhile Char.isDigit).take w
  if ds.length == w then some (digitsToNat ds, s.drop w) else none

/-- An optional trailing `±HH:MM` offset (CPython's pre-3.11
`fromisoformat` grammar). -/
def isoTz : List Char → Option (Option Int × List Char)
  | [] => some (none, [])
  | c :: r =>
    if c == '+' || c == '-' then
      match parseFixedNum 2 r with
      | some (hh, ':' :: r2) =>
        match parseFixedNum 2 r2 with
        | some (mm, rest) =>
          let v : Int := Int.ofNat (hh * 60 + mm)
          some (some (if c == '-' then -v else v), rest)
        | none => none
      | _ => none
    else none

/-- `datetime.fromisoformat` as CPython ≤ 3.10 parses it (the interpreter
the repository targets): `YYYY-MM-DD`, optionally a one-character
separator and `HH:MM[:SS]`, optionally `±HH:MM`; microseconds are not
modelled (no input in this development carries them). -/
def fromisoformat (s : String) : Option DateTime :=
  match parseFixedNum 4 s.toList with
  | some (y, '-' :: r1) =>
    match parseFixedNum 2 r1 with
    | some (m, '-' :: r2) =>
      match parseFixedNum 2 r2 with
      | some (d, rest) =>
        if 1 ≤ m && m ≤ 12 && 1 ≤ d && d ≤ daysInMonth y m then
          match rest with
          | [] => some ⟨y, m, d, 0, 0, 0, none⟩
          | _ :: t =>
            match parseFixedNum 2 t with
            | some (hh, ':' :: t2) =>
              match parseFixedNum 2 t2 with
              | some (mm, t3) =>
                if hh ≤ 23 && mm ≤ 59 then
                  match t3 with
                  | ':' :: t4 =>
                    match parseFixedNum 2 t4 with
                    | some (ss, t5) =>
                      if ss ≤ 59 then
                        match isoTz t5 with
                        | some (tz, []) => some ⟨y, m, d, hh, mm, ss, tz⟩
                        | _ => none
                      else none
                    | none => none
                  | t4 =>
                    match isoTz t4 with
                    | some (tz, []) => some ⟨y, m, d, hh, mm, 0, tz⟩
                    | _ => none
                else none
              | none => none
            | _ => none
        else none
      | none => none
    | _ => none
  | _ => none

/-- `date_str.replace('Z', '+00:00')`. -/
def replaceZ (s : String) : String :=
  ⟨s.toList.foldr (fun c acc => (if c == 'Z' then ['+', '0', '0', ':', '0', '0'] else [c]) ++ acc) []⟩

/-- The explicit formats the published-date text fallback tries
(scraper.py:680). -/
def extract_pub_formats : List String := ["%Y-%m-%dT%H:%M:%S%z", "%Y-%m-%d", "%d/%m/%Y"]

/-- The date-selector loop (scraper.py:669-690): first selector that
yields a tag whose truthy `content` parses with `fromisoformat` (after
`Z` replacement), or whose non-blank text parses with one of the three
explicit formats, wins; every failure continues to the next selector. -/
def find_published_date : List (Option DateTag) → Option DateTime
  | [] => none
  | t :: rest =>
    match t with
    | none => find_published_date rest
    | some tag =>
      match tag.content with
      | some c =>
        match fromisoformat (replaceZ c) with
        | some dt => some dt
        | none => find_published_date rest
      | none =>
        if pyStrip tag.text == "" then find_published_date rest
        else
          match tryDateFormats (pyStrip tag.text) extract_pub_formats with
          | some dt => some dt
          | none => find_published_date rest

/-- Python truthiness of an optional string (`None` and `''` are falsy). -/
def optTruthy : Option String → Bool
  | none => false
  | some s => s != ""

/-- `urllib.parse.urljoin`, abstracted: an absolute reference is returned
as is, otherwise it is resolved against the base.  The exact resolution of
relative references is irrelevant to every claim below. -/
def urljoin (base rel : String) : String :=
  if pyStarts rel "http://" || pyStarts rel "https://" then rel else base ++ rel

/-- Title step (scraper.py:622-633): only an empty or placeholder
(`'Sin título'`) title is replaced — by the `<title>` text, else a truthy
`og:title` content (stripped), else the placeholder. -/
def updateTitle (page : HtmlPage) (a : Article) : Article :=
  if a.title == "" || a.title == "Sin título" then
    match page.titleText with
    | some t => { a with title := t }
    | none =>
      match page.ogTitle with
      | some tag =>
        match tag.content with
        | some c => { a with title := pyStrip c }
        | none => { a with title := "Sin título" }
      | none => { a with title := "Sin título" }
  else a

/-- Description step (scraper.py:635-641): the description is assigned
unconditionally — the stripped content of `meta[name=description]` (the
tag found first), else of `meta[property=og:description]`, else `''`. -/
def extractedDescription (page : HtmlPage) : String :=
  match page.metaDescription.orElse (fun _ => page.ogDescription) with
  | some tag =>
    match tag.content with
    | some c => pyStrip c
    | none => ""
  | none => ""

def updateDescription (page : HtmlPage) (a : Article) : Article :=
  { a with description := extractedDescription page }

/-- Image step (scraper.py:643-652): only a falsy `image_url` is filled,
from a truthy `og:image` content, else the first `img[src]` resolved
against the article URL. -/
def updateImage (page : HtmlPage) (a : Article) : Article :=
  if optTruthy a.image_url then a
  else
    match page.ogImage with
    | some tag =>
      match tag.content with
      | some c => { a with image_url := some c }
      | none =>
        match page.firstImgSrc with
        | some s => { a with image_url := some (urljoin a.url s) }
        | none => a
    | none =>
      match page.firstImgSrc with
      | some s => { a with image_url := some (urljoin a.url s) }
      | none => a

/-- Published-date step (scraper.py:654-690): only a `None` date is
filled, by the date-selector cascade. -/
def updateDate (page : HtmlPage) (a : Article) : Article :=
  if a.published_date.isNone then
    match find_published_date page.dateTags with
    | some dt => { a with published_date := some dt }
    | none => a
  else a

/-- The body of an HTTP response, carrying every view the source may take
of the raw text: the classification substring tests, the three sitemap
parses, and the HTML-page view used by article extraction. -/
structure Body where
  /-- `'sitemapindex' in response.text.lower()`. -/
  hasIndexToken : Bool := false
  /-- `'newssitemap' in response.text.lower()`. -/
  hasNewsToken : Bool := false
  /-- The document as `_parse_sitemap_index` sees it. -/
  indexDoc : IndexDoc := ⟨true, []⟩
  /-- What `_parse_news_sitemap(response.text)` yields (that parser's
  internals are not at issue in any claim, so its result is the view). -/
  newsArticles : List Article := []
  /-- What `_parse_standard_sitemap(response.text)` yields. -/
  stdArticles : List Article := []
  /-- The document as BeautifulSoup hands it to `extract_article_info`. -/
  page : HtmlPage := {}
deriving Repr, DecidableEq

structure Response where
  /-- `response.headers.get('content-type', '').lower()` is applied by the
  source before its substring tests; `contentType` is the raw header. -/
  contentType : String
  body : Body
deriving Repr, DecidableEq

/-- The network: a successful GET for each URL, or `none` for a
request-level failure (`requests.RequestException`, including non-2xx via
`raise_for_status`). -/
def Remote := String → Option Response

/-- `extract_article_info` (scraper.py:581-700).  A request failure or a
non-HTML content type yields `none` (the article is dropped for the run);
otherwise the four field-fill steps run in the source's order: title,
description, image, published date. -/
def extract_article_info (remote : Remote) (article : Article) : Option Article :=
  match remote article.url with
  | none => none
  | some resp =>
    if !pyContains (pyLower resp.contentType) "text/html" then none
    else
      let page := resp.body.page
      some (updateDate page (updateImage page (updateDescription page (updateTitle page article))))

/-! ## Sitemap fetching (`fetch_sitemap`, scraper.py:528-579) -/

/-- Classification as a sitemap index (scraper.py:541): the token test on
the lowered body or on the lowered content-type header. -/
def isIndexResp (r : Response) : Bool :=
  r.body.hasIndexToken || pyContains (pyLower r.contentType) "sitemapindex"

/-- Classification as a news sitemap (scraper.py:562). -/
def isNewsResp (r : Response) : Bool :=
  r.body.hasNewsToken || pyContains (pyLower r.contentType) "newssitemap"

/-- The child sitemaps an index fetch submits to its worker pool:
`sitemap_urls[:20]` (scraper.py:548-551). -/
def child_sitemap_urls (r : Response) : List String :=
  (_parse_sitemap_index r.body.indexDoc).take 20

/-- The index branch: every child sitemap is fetched with the child-fetch
function `f` (the recursive `fetch_sitemap` at the remaining fuel) and the
article lists are concatenated; worker completion is sequentialised in
submission order.  A `none` (fuel exhaustion) propagates. -/
def fetch_children (f : String → Option (List Article)) : List String → Option (List Article)
  | [] => some []
  | u :: us =>
    match f u, fetch_children f us with
    | some l, some r => some (l ++ r)
    | _, _ => none

/-- `fetch_sitemap` with explicit fuel: `none` models a run still
recursing past that depth (the source recurses unboundedly through
`executor.submit(self.fetch_sitemap, ...)`).  A request failure returns
`some []` — the source logs and returns an empty list.  (Defined through
`Nat.rec` so that the kernel can evaluate it on concrete inputs.) -/
def fetch_sitemap (remote : Remote) (fuel : Nat) : String → Option (List Article) :=
  Nat.rec (motive := fun _ => String → Option (List Article))
    (fun _ => none)
    (fun _ ih url =>
      match remote url with
      | none => some []
      | some resp =>
        if isIndexResp resp then fetch_children ih (child_sitemap_urls resp)
        else if isNewsResp resp then some resp.body.newsArticles
        else some resp.body.stdArticles)
    fuel

theorem fetch_sitemap_zero (remote : Remote) (url : String) :
    fetch_sitemap remote 0 url = none := rfl

theorem fetch_sitemap_succ (remote : Remote) (fuel : Nat) (url : String) :
    fetch_sitemap remote (fuel + 1) url =
      match remote url with
      | none => some []
      | some resp =>
        if isIndexResp resp then
          fetch_children (fetch_sitemap remote fuel) (child_sitemap_urls resp)
        else if isNewsResp resp then some resp.body.newsArticles
        else some resp.body.stdArticles := rfl

/-! ## The article store (`load_existing_data` / `save_articles`,
scraper.py:702-715)

The CSV file is modelled as `Option (List Article)` (`none` = absent); for
`load_existing_data`, whose corruption behaviour is at issue, the
present-file case additionally carries what `pandas.read_csv` does:
`Except.error` is the exception it raises on a corrupted file. -/

abbrev FileState := Option (List Article)

/-- `load_existing_data` (scraper.py:702-706), translated literally: if
the file exists, the result of `pd.read_csv` — including a raised parse
error, which the source does not catch — otherwise an empty frame. -/
def load_existing_data (file : Option (Except String (List Article))) :
    Except String (List Article) :=
  match file with
  | some readResult => readResult
  | none => .ok []

/-- The rows of a well-formed-or-absent store, as `monitor_websites` reads
them (`existing_articles['url'].tolist()` over the loaded frame). -/
def load_existing_rows (fs : FileState) : List Article := fs.getD []

/-- `drop_duplicates(subset=['url'], keep='first')`: keep each URL's first
occurrence, preserving order. -/
def dedupByUrlKeepFirst (rows : List Article) : List Article :=
  go [] rows
where
  go (seen : List String) : List Article → List Article
    | [] => []
    | r :: rs => if r.url ∈ seen then go seen rs else r :: go (r.url :: seen) rs

/-- `save_articles` (scraper.py:708-715): an empty batch writes nothing;
otherwise, when the file exists, the new rows are concatenated after the
existing ones and duplicate URLs are dropped keeping the first occurrence;
when it does not, the batch is written as is. -/
def save_articles (fs : FileState) (articles : List Article) : FileState :=
  if articles.isEmpty then fs
  else
    match fs with
    | some existing => some (dedupByUrlKeepFirst (existing ++ articles))
    | none => some articles

/-! ## The orchestrator (`monitor_websites`, scraper.py:717-798) -/

/-- A `WEBSITES` entry as `monitor_websites` consumes it. -/
structure Site where
  name : String
  sitemap : String
  is_own_site : Bool
deriving Repr, DecidableEq

/-- Stamping the site metadata onto a sitemap article
(scraper.py:750-752). -/
def stampArticle (site : Site) (a : Article) : Article :=
  { a with source := site.name, is_own_site := site.is_own_site }

/-- One site's iteration (scraper.py:738-796), over the accumulated
known-URL set and store state: fetch the sitemap tree, stamp, filter
already-known URLs, truncate to the per-site cap, extract each remaining
article (a `none` extraction is logged and skipped), record the processed
URLs, and append the successes — an empty batch performs no write.
`none` propagates only fuel exhaustion of `fetch_sitemap`. -/
def monitorSiteStep (remote : Remote) (fuel cap : Nat)
    (acc : List String × FileState) (site : Site) : Option (List String × FileState) :=
  let (urls, st) := acc
  match fetch_sitemap remote fuel site.sitemap with
  | none => none
  | some arts =>
    if arts.isEmpty then some (urls, st)
    else
      let stamped := arts.map (stampArticle site)
      let newArticles := (stamped.filter (fun a => !(urls.contains a.url))).take cap
      if newArticles.isEmpty then some (urls, st)
      else
        let processed := newArticles.filterMap (extract_article_info remote)
        let urls2 := urls ++ processed.map (·.url)
        if processed.isEmpty then some (urls2, st)
        else some (urls2, save_articles st processed)

/-- `monitor_websites`: load the store once, build the known-URL set, run
every site's iteration in order, and return the final store state. -/
def monitor_websites (remote : Remote) (sites : List Site) (fuel cap : Nat)
    (fs : FileState) : Option FileState :=
  let existing := load_existing_rows fs
  (sites.foldl
    (fun acc site => acc.bind (fun a => monitorSiteStep remote fuel cap a site))
    (some (existing.map (·.url), fs))).map (·.2)

/-! ## Concrete fixtures used by the claim theorems below -/

def c6ChildUrl (i : Nat) : String := "https://s.example/" ++ toString i ++ ".xml"

def c6Locs : List LocEntry := (List.range 25).map (fun i => ⟨sitemap_ns, c6ChildUrl i⟩)

/-- A sitemap-index response whose index lists 25 child sitemaps. -/
def c6Resp : Response := ⟨"application/xml", { hasIndexToken := true, indexDoc := ⟨true, c6Locs⟩ }⟩

def c6Art (i : Nat) : Article := ⟨"https://n.example/" ++ toString i, "", "", "", "", false, none, none, none⟩

/-- The remote for the cap test: the index URL serves `c6Resp`, each child
URL serves a standard sitemap with one article. -/
def c6Remote : Remote := fun u =>
  if u == "https://s.example/index.xml" then some c6Resp
  else
    match (List.range 25).find? (fun i => u == c6ChildUrl i) with
    | some i => some ⟨"application/xml", { stdArticles := [c6Art i] }⟩
    | none => none

def c9Now : DateTime := ⟨2024, 5, 1, 12, 0, 0, none⟩

def c9Art : Article :=
  ⟨"https://x.example/a", "T", "s", "d", "src", true, some ⟨2023, 2, 1, 0, 0, 0, none⟩, none, none⟩

def c2Old : Article := ⟨"https://x.example/art", "Old", "s", "", "SiteA", false, none, none, none⟩

def c2New : Article := ⟨"https://x.example/art", "New", "s", "", "SiteA", false, none, none, none⟩

def c1Resp : Response := ⟨"text/html", {}⟩

def c1Art : Article :=
  ⟨"https://x.example/prior", "Title kept", "s", "Prior description", "SiteA", false, none, none, none⟩

def c1Remote : Remote := fun u => if u == "https://x.example/prior" then some c1Resp else none

def c1wArt : Article :=
  ⟨"https://x.example/prior", "Keep me", "s", "", "SiteA", false,
   some ⟨2023, 1, 1, 0, 0, 0, none⟩, none, some "https://img.example/i.png"⟩

def c1wOut : Article := { c1wArt with description := "" }

/-- `fetch_sitemap` terminates on `url` iff some finite recursion depth
suffices. -/
def TerminatesFetch (remote : Remote) (url : String) : Prop :=
  ∃ fuel arts, fetch_sitemap remote fuel url = some arts

def c10Url : String := "https://cycle.example/sitemap.xml"

/-- A sitemap index listing its own URL as its only child. -/
def c10Resp : Response :=
  ⟨"application/xml", { hasIndexToken := true, indexDoc := ⟨true, [⟨sitemap_ns, c10Url⟩]⟩ }⟩

def c10Remote : Remote := fun u => if u == c10Url then some c10Resp else none

def c10wIndexUrl : String := "https://ok.example/index.xml"

def c10wLeafUrl : String := "https://ok.example/leaf.xml"

def c10wIndexResp : Response :=
  ⟨"application/xml", { hasIndexToken := true, indexDoc := ⟨true, [⟨sitemap_ns, c10wLeafUrl⟩]⟩ }⟩

def c10wLeafResp : Response :=
  ⟨"application/xml",
   { stdArticles := [⟨"https://ok.example/a1", "", "", "", "", false, none, none, none⟩] }⟩

def c10wRemote : Remote := fun u =>
  if u == c10wIndexUrl then some c10wIndexResp
  else if u == c10wLeafUrl then some c10wLeafResp
  else none

def c10wDepth : String → Nat := fun u => if u == c10wIndexUrl then 1 else 0

def c7Site : Site := ⟨"SiteC7", "https://c7.example/sitemap.xml", false⟩

def c7a1 : Article := ⟨"https://c7.example/a1", "t1", "s", "", "", false, none, none, none⟩

def c7a2 : Article := ⟨"https://c7.example/a2", "t2", "s", "", "", false, none, none, none⟩

def c7a3 : Article := ⟨"https://c7.example/a3", "t3", "s", "", "", false, none, none, none⟩

/-- The C7 remote: the sitemap lists three articles; fetching the second
article's page fails at the request level; the other two serve HTML. -/
def c7Remote : Remote := fun u =>
  if u == "https://c7.example/sitemap.xml" then
    some ⟨"application/xml", { stdArticles := [c7a1, c7a2, c7a3] }⟩
  else if u == "https://c7.example/a2" then none
  else if u == "https://c7.example/a1" || u == "https://c7.example/a3" then
    some ⟨"text/html", {}⟩
  else none

def c3wSite : Site := ⟨"SiteC3", "https://c3w.example/sitemap.xml", false⟩

def c3wSitemapArt : Article := ⟨"https://c3w.example/a1", "t", "s", "", "", false, none, none, none⟩

def c3wRemote : Remote := fun u =>
  if u == "https://c3w.example/sitemap.xml" then
    some ⟨"application/xml", { stdArticles := [c3wSitemapArt] }⟩
  else some ⟨"text/html", {}⟩

def c3wRow : Article := ⟨"https://c3w.example/a1", "t", "s", "", "SiteC3", false, none, none, none⟩

def c3Arts : List Article := (List.range 51).map (fun i =>
  ⟨"a" ++ toString i, "t", "s", "", "", false, none, none, none⟩)

def c3Site : Site := ⟨"Big", "smap", false⟩

/-- A remote serving a standard sitemap with 51 articles; every article
URL serves HTML, so every extraction succeeds. -/
def c3Remote : Remote := fun u =>
  if u == "smap" then some ⟨"application/xml", { stdArticles := c3Arts }⟩
  else some ⟨"text/html", {}⟩

/-- The store after a completed first run from an absent file. -/
def c3FirstStore : FileState := (monitor_websites c3Remote [c3Site] 1 50 none).getD none

/-! ## Helper lemmas about the extraction steps -/

@[simp] theorem updateTitle_url (p : HtmlPage) (a : Article) : (updateTitle p a).url = a.url := by
  unfold updateTitle
  repeat' split
  all_goals rfl

@[simp] theorem updateTitle_sect (p : HtmlPage) (a : Article) : (updateTitle p a).sect = a.sect := by
  unfold updateTitle
  repeat' split
  all_goals rfl

@[simp] theorem updateTitle_description (p : HtmlPage) (a : Article) :
    (updateTitle p a).description = a.description := by
  unfold updateTitle
  repeat' split
  all_goals rfl

@[simp] theorem updateTitle_source (p : HtmlPage) (a : Article) :
    (updateTitle p a).source = a.source := by
  unfold updateTitle
  repeat' split
  all_goals rfl

@[simp] theorem updateTitle_own (p : HtmlPage) (a : Article) :
    (updateTitle p a).is_own_site = a.is_own_site := by
  unfold updateTitle
  repeat' split
  all_goals rfl

@[simp] theorem updateTitle_pub (p : HtmlPage) (a : Article) :
    (updateTitle p a).published_date = a.published_date := by
  unfold updateTitle
  repeat' split
  all_goals rfl

@[simp] theorem updateTitle_lastmod (p : HtmlPage) (a : Article) :
    (updateTitle p a).last_modified = a.last_modified := by
  unfold updateTitle
  repeat' split
  all_goals rfl

@[simp] theorem updateTitle_image (p : HtmlPage) (a : Article) :
    (updateTitle p a).image_url = a.image_url := by
  unfold updateTitle
  repeat' split
  all_goals rfl

/-- A non-empty, non-placeholder title disables the title step entirely. -/
theorem updateTitle_of_real_title (p : HtmlPage) (a : Article)
    (h1 : a.title ≠ "") (h2 : a.title ≠ "Sin título") : updateTitle p a = a := by
  unfold updateTitle
  rw [if_neg]
  simp [h1, h2]

@[simp] theorem updateImage_url (p : HtmlPage) (a : Article) : (updateImage p a).url = a.url := by
  unfold updateImage
  repeat' split
  all_goals rfl

@[simp] theorem updateImage_title (p : HtmlPage) (a : Article) :
    (updateImage p a).title = a.title := by
  unfold updateImage
  repeat' split
  all_goals rfl

@[simp] theorem updateImage_sect (p : HtmlPage) (a : Article) : (updateImage p a).sect = a.sect := by
  unfold updateImage
  repeat' split
  all_goals rfl

@[simp] theorem updateImage_description (p : HtmlPage) (a : Article) :
    (updateImage p a).description = a.description := by
  unfold updateImage
  repeat' split
  all_goals rfl

@[simp] theorem updateImage_source (p : HtmlPage) (a : Article) :
    (updateImage p a).source = a.source := by
  unfold updateImage
  repeat' split
  all_goals rfl

@[simp] theorem updateImage_own (p : HtmlPage) (a : Article) :
    (updateImage p a).is_own_site = a.is_own_site := by
  unfold updateImage
  repeat' split
  all_goals rfl

@[simp] theorem updateImage_pub (p : HtmlPage) (a : Article) :
    (updateImage p a).published_date = a.published_date := by
  unfold updateImage
  repeat' split
  all_goals rfl

@[simp] theorem updateImage_lastmod (p : HtmlPage) (a : Article) :
    (updateImage p a).last_modified = a.last_modified := by
  unfold updateImage
  repeat' split
  all_goals rfl

/-- A truthy prior image disables the image step entirely. -/
theorem updateImage_of_truthy (p : HtmlPage) (a : Article)
    (h : optTruthy a.image_url = true) : updateImage p a = a := by
  unfold updateImage
  rw [if_pos h]

@[simp] theorem updateDate_url (p : HtmlPage) (a : Article) : (updateDate p a).url = a.url := by
  unfold updateDate
  repeat' split
  all_goals rfl

@[simp] theorem updateDate_title (p : HtmlPage) (a : Article) : (updateDate p a).title = a.title := by
  unfold updateDate
  repeat' split
  all_goals rfl

@[simp] theorem updateDate_sect (p : HtmlPage) (a : Article) : (updateDate p a).sect = a.sect := by
  unfold updateDate
  repeat' split
  all_goals rfl

@[simp] theorem updateDate_description (p : HtmlPage) (a : Article) :
    (updateDate p a).description = a.description := by
  unfold updateDate
  repeat' split
  all_goals rfl

@[simp] theorem updateDate_source (p : HtmlPage) (a : Article) :
    (updateDate p a).source = a.source := by
  unfold updateDate
  repeat' split
  all_goals rfl

@[simp] theorem updateDate_own (p : HtmlPage) (a : Article) :
    (updateDate p a).is_own_site = a.is_own_site := by
  unfold updateDate
  repeat' split
  all_goals rfl

@[simp] theorem updateDate_lastmod (p : HtmlPage) (a : Article) :
    (updateDate p a).last_modified = a.last_modified := by
  unfold updateDate
  repeat' split
  all_goals rfl

@[simp] theorem updateDate_image (p : HtmlPage) (a : Article) :
    (updateDate p a).image_url = a.image_url := by
  unfold updateDate
  repeat' split
  all_goals rfl

/-- A present prior published date disables the date step entirely. -/
theorem updateDate_of_isSome (p : HtmlPage) (a : Article)
    (h : a.published_date.isSome = true) : updateDate p a = a := by
  unfold updateDate
  rw [if_neg]
  simp only [Option.isNone_iff_eq_none]
  intro hn
  rw [hn] at h
  exact Bool.noConfusion h

/-- A successful extraction never changes the article's URL. -/
theorem extract_preserves_url (remote : Remote) (a e : Article)
    (h : extract_article_info remote a = some e) : e.url = a.url := by
  unfold extract_article_info at h
  split at h
  · exact Option.noConfusion h
  · split at h
    · exact Option.noConfusion h
    · injection h with h
      subst h
      simp [updateDescription]

/-! ## Claim C4 — date-format order in `_parse_date` -/

/-- C4: `_parse_date` tries its explicit patterns in a fixed order with the
ISO-8601 patterns first and the European `%d/%m/%Y` patterns before the
American `%m/%d/%Y` ones, so `"01/02/2023"` parses as 1 February 2023 —
whatever the `dateutil` fallback would say. -/
theorem c4_parse_date_european_before_american :
    ∀ dateutil : String → Option DateTime,
      _parse_date dateutil "01/02/2023" = some ⟨2023, 2, 1, 0, 0, 0, none⟩
    ∧ date_formats.take 2 = ["%Y-%m-%dT%H:%M:%S%z", "%Y-%m-%dT%H:%M:%S"]
    ∧ date_formats.indexOf "%d/%m/%Y" < date_formats.indexOf "%m/%d/%Y"
    ∧ date_formats.indexOf "%d/%m/%Y %H:%M:%S" < date_formats.indexOf "%m/%d/%Y %H:%M:%S" := by
  intro dateutil
  exact ⟨rfl, by decide, by decide, by decide⟩

/-! ## Claim C5 — absoluteness filtering in `_parse_sitemap_index` -/

/-- C5 counterexample: on malformed XML the BeautifulSoup fallback path of
`_parse_sitemap_index` returns `loc` texts without the `http(s)://`
filter, so a relative entry survives — refuting the claim that every
returned URL is absolute on every path through the parser. -/
theorem c5_fallback_keeps_relative_url_cex :
    _parse_sitemap_index ⟨false, [⟨"", "relative/only.xml"⟩]⟩ = ["relative/only.xml"]
    ∧ (pyStarts "relative/only.xml" "http://" || pyStarts "relative/only.xml" "https://") = false := by
  exact ⟨by decide, by decide⟩

/-- C5 amended: on the well-formed-XML (ElementTree) path every URL
returned by `_parse_sitemap_index` starts with `http://` or `https://`
(relative entries are discarded); in particular an index with one
namespaced absolute `loc` and one relative `loc` yields exactly the
absolute URL.  The BeautifulSoup fallback taken after an XML parse failure
applies no such filter. -/
theorem c5_wellformed_index_urls_absolute :
    (∀ d : IndexDoc, d.wellFormed = true →
      ∀ u ∈ _parse_sitemap_index d, (pyStarts u "http://" || pyStarts u "https://") = true)
    ∧ _parse_sitemap_index
        ⟨true, [⟨sitemap_ns, "https://a.com/s1.xml"⟩, ⟨sitemap_ns, "/sitemap2.xml"⟩]⟩
        = ["https://a.com/s1.xml"] := by
  constructor
  · intro d hw u hu
    unfold _parse_sitemap_index at hu
    rw [if_pos hw] at hu
    obtain ⟨l, hl, heq⟩ := List.mem_filterMap.mp hu
    dsimp only at heq
    split at heq
    · exact Option.noConfusion heq
    · split at heq
      · exact Option.noConfusion heq
      · split at heq
        · injection heq with heq
          subst heq
          assumption
        · exact Option.noConfusion heq
  · decide

/-! ## Claim C6 — the 20-child fan-out cap of `fetch_sitemap` -/

/-- C6: an index fetch submits at most 20 child sitemap URLs — the first
20 in document order (`sitemap_urls[:20]`).  Concretely, on an index with
25 children exactly the first 20 are fetched, and the overall result
contains exactly those 20 children's articles. -/
theorem c6_index_child_fetch_cap :
    (∀ r : Response, (child_sitemap_urls r).length ≤ 20)
    ∧ child_sitemap_urls c6Resp = (List.range 20).map c6ChildUrl
    ∧ fetch_sitemap c6Remote 2 "https://s.example/index.xml"
        = some ((List.range 20).map c6Art) := by
  refine ⟨?_, by decide, by decide⟩
  intro r
  exact List.length_take_le 20 _

/-! ## Claim C8 — `load_existing_data` on an absent vs. corrupted file -/

/-- C8 (code bug): `load_existing_data` returns an empty frame when the
file is absent, but a corrupted file is *not* caught: the `pd.read_csv`
error propagates (the repository's own test
`test_load_existing_data_corrupted_file` expects an empty frame and a
logged error instead). -/
theorem c8_load_existing_data_propagates_corruption :
    load_existing_data none = .ok []
    ∧ load_existing_data (some (.error "EmptyDataError: File is empty"))
        = .error "EmptyDataError: File is empty" :=
  ⟨rfl, rfl⟩

/-! ## Claim C9 — the serialized columns -/

/-- C9 counterexample: no serialized row has an `ingested_at` column — the
`to_dict` path's tenth key is `timestamp`, and the `monitor_websites` save
path (a frame of `Article` dataclasses) has only the nine dataclass
columns. -/
theorem c9_no_ingested_at_column_cex :
    ((Article.to_dict c9Now c9Art).map Prod.fst).contains "ingested_at" = false
    ∧ (Article.to_dict c9Now c9Art).map Prod.fst
        = ["url", "title", "section", "description", "source", "is_own_site",
           "published_date", "last_modified", "image_url", "timestamp"]
    ∧ articleFrameColumns.contains "ingested_at" = false
    ∧ articleFrameColumns.contains "timestamp" = false := by
  exact ⟨by decide, by decide, by decide, by decide⟩

/-- C9 amended: a row serialized by `Article.to_dict` has columns exactly
{url, title, section, description, source, is_own_site, published_date,
last_modified, image_url, timestamp} — the ingestion-time column is named
`timestamp` — with both date fields ISO-8601 strings or null. -/
theorem c9_to_dict_columns :
    ∀ (now : DateTime) (a : Article),
      (Article.to_dict now a).map Prod.fst
        = ["url", "title", "section", "description", "source", "is_own_site",
           "published_date", "last_modified", "image_url", "timestamp"]
      ∧ (Article.to_dict now a).lookup "published_date"
          = some (match a.published_date with
            | some d => PyVal.str (isoformat d)
            | none => PyVal.null)
      ∧ (Article.to_dict now a).lookup "last_modified"
          = some (match a.last_modified with
            | some d => PyVal.str (isoformat d)
            | none => PyVal.null)
      ∧ (Article.to_dict now a).lookup "timestamp" = some (PyVal.str (isoformat now)) := by
  intro now a
  exact ⟨rfl, rfl, rfl, rfl⟩

/-! ## Claim C2 — append keeps the existing row on a duplicate URL -/

/-- Deduplication keeps the first occurrence: looking a URL up (first
match) in the deduplicated list equals looking it up in the original,
provided the URL is not in the already-seen accumulator. -/
theorem find?_dedupGo (x : String) (l : List Article) :
    ∀ seen : List String, x ∉ seen →
      (dedupByUrlKeepFirst.go seen l).find? (fun r => r.url == x)
        = l.find? (fun r => r.url == x) := by
  induction l with
  | nil => intro seen _; rfl
  | cons r rs ih =>
    intro seen hx
    unfold dedupByUrlKeepFirst.go
    by_cases hmem : r.url ∈ seen
    · rw [if_pos hmem]
      have hne : (r.url == x) = false := by
        simp only [beq_eq_false_iff_ne, ne_eq]
        intro h
        exact hx (h ▸ hmem)
      rw [ih seen hx]
      simp [hne]
    · rw [if_neg hmem]
      by_cases hpx : (r.url == x) = true
      · simp [hpx]
      · have hne : (r.url == x) = false := by
          simp only [Bool.not_eq_true] at hpx
          exact hpx
        have hx2 : x ∉ r.url :: seen := by
          intro h
          rcases List.mem_cons.mp h with h1 | h2
          · exact hpx (beq_iff_eq.mpr h1.symm)
          · exact hx h2
        have hstep : ∀ l : List Article,
            List.find? (fun q => q.url == x) (r :: l) = List.find? (fun q => q.url == x) l := by
          intro l
          apply List.find?_cons_of_neg
          simp [hne]
        rw [hstep, hstep]
        exact ih _ hx2

/-- C2: `save_articles` concatenates the new batch after the existing rows
and deduplicates by URL keeping the first occurrence, so for any URL
already present the stored row after the append is the existing one,
untouched by the re-crawled duplicate. -/
theorem c2_append_existing_wins (existing newRows : List Article) (x : String)
    (h : (existing.find? (fun r => r.url == x)).isSome = true) :
    (load_existing_rows (save_articles (some existing) newRows)).find? (fun r => r.url == x)
      = existing.find? (fun r => r.url == x) := by
  unfold save_articles
  by_cases hemp : newRows.isEmpty
  · rw [if_pos hemp]
    rfl
  · rw [if_neg hemp]
    show (dedupByUrlKeepFirst.go [] (existing ++ newRows)).find? (fun r => r.url == x)
      = existing.find? (fun r => r.url == x)
    rw [find?_dedupGo x (existing ++ newRows) [] (by simp)]
    rw [List.find?_append]
    obtain ⟨r, hr⟩ := Option.isSome_iff_exists.mp h
    rw [hr]
    rfl

/-- C2 witness: with an existing row `url=X, title="Old"` and a new
article `url=X, title="New"`, the row stored for `X` after `save_articles`
is still the `"Old"` one. -/
theorem c2_append_existing_wins_witness :
    (load_existing_rows (save_articles (some [c2Old]) [c2New])).find?
        (fun r => r.url == "https://x.example/art") = some c2Old :=
  (c2_append_existing_wins [c2Old] [c2New] "https://x.example/art" (by decide)).trans (by decide)

/-! ## Claim C1 — the field-fill policy of `extract_article_info` -/

/-- C1 counterexample: `extract_article_info` assigns the description
unconditionally (scraper.py:641) — an article whose prior description is
the non-empty, non-placeholder `"Prior description"` comes back with it
replaced (here by `""`, the page having no description meta tags). -/
theorem c1_description_overwritten_cex :
    c1Art.description = "Prior description"
    ∧ extract_article_info c1Remote c1Art = some { c1Art with description := "" } :=
  ⟨rfl, by decide⟩

/-- C1 amended: on a successful extraction, title, image and published
date are overwritten only when the prior value is empty/placeholder
(`''`/`'Sin título'`, falsy image, `None` date), and url, section, source,
is_own_site and last_modified are never touched — but the description is
replaced unconditionally by the page's extracted meta description (empty
string when the page has none). -/
theorem c1_extract_field_fill (remote : Remote) (a e : Article)
    (hext : extract_article_info remote a = some e) :
    (a.title ≠ "" → a.title ≠ "Sin título" → e.title = a.title)
    ∧ (optTruthy a.image_url = true → e.image_url = a.image_url)
    ∧ (a.published_date.isSome = true → e.published_date = a.published_date)
    ∧ (∀ resp, remote a.url = some resp → e.description = extractedDescription resp.body.page)
    ∧ e.url = a.url ∧ e.sect = a.sect ∧ e.source = a.source
    ∧ e.is_own_site = a.is_own_site ∧ e.last_modified = a.last_modified := by
  unfold extract_article_info at hext
  split at hext
  · exact Option.noConfusion hext
  · rename_i resp hresp
    split at hext
    · exact Option.noConfusion hext
    · injection hext with hext
      subst hext
      refine ⟨?_, ?_, ?_, ?_, ?_, ?_, ?_, ?_, ?_⟩
      · intro h1 h2
        rw [updateDate_title, updateImage_title,
          show (updateDescription resp.body.page (updateTitle resp.body.page a)).title
            = (updateTitle resp.body.page a).title from rfl,
          updateTitle_of_real_title _ _ h1 h2]
      · intro h
        have hb : (updateDescription resp.body.page (updateTitle resp.body.page a)).image_url
            = a.image_url := by simp [updateDescription]
        rw [updateDate_image, updateImage_of_truthy _ _ (by rw [hb]; exact h), hb]
      · intro h
        have hb : (updateImage resp.body.page
            (updateDescription resp.body.page (updateTitle resp.body.page a))).published_date
            = a.published_date := by simp [updateDescription]
        rw [updateDate_of_isSome _ _ (by rw [hb]; exact h), hb]
      · intro resp2 hresp2
        have he : resp2 = resp := by
          rw [hresp] at hresp2
          exact (Option.some.inj hresp2).symm
        subst he
        simp [updateDescription]
      · simp [updateDescription]
      · simp [updateDescription]
      · simp [updateDescription]
      · simp [updateDescription]
      · simp [updateDescription]

/-- C1 witness: a concrete article with a real title, a truthy image and a
set published date keeps all three through extraction. -/
theorem c1_extract_field_fill_witness :
    extract_article_info c1Remote c1wArt = some c1wOut
    ∧ c1wOut.title = c1wArt.title
    ∧ c1wOut.image_url = c1wArt.image_url
    ∧ c1wOut.published_date = c1wArt.published_date := by
  have h : extract_article_info c1Remote c1wArt = some c1wOut := by decide
  have hc := c1_extract_field_fill c1Remote c1wArt c1wOut h
  exact ⟨h, hc.1 (by decide) (by decide), hc.2.1 (by decide), hc.2.2.1 (by decide)⟩

/-! ## Claim C10 — termination of recursive sitemap-index resolution -/

/-- On the self-referential index no amount of fuel suffices: each level
re-fetches the same URL one level deeper. -/
theorem c10_no_fuel_suffices : ∀ fuel, fetch_sitemap c10Remote fuel c10Url = none := by
  intro fuel
  induction fuel with
  | zero => rfl
  | succ n ih =>
    rw [fetch_sitemap_succ]
    simp only [show c10Remote c10Url = some c10Resp from rfl]
    rw [if_pos (show isIndexResp c10Resp = true from rfl)]
    rw [show child_sitemap_urls c10Resp = [c10Url] from by decide]
    simp [fetch_children, ih]

/-- C10 counterexample: a sitemap index that lists its own URL among its
children makes `fetch_sitemap` recurse forever — the recursion carries no
visited-set or depth limit, so resolution does not terminate for every
assignment of responses. -/
theorem c10_cyclic_index_diverges_cex : ¬ TerminatesFetch c10Remote c10Url := by
  rintro ⟨fuel, arts, h⟩
  rw [c10_no_fuel_suffices fuel] at h
  exact Option.noConfusion h

/-- Folding child fetches preserves definedness. -/
theorem fetch_children_isSome (f : String → Option (List Article)) (us : List String)
    (hall : ∀ u ∈ us, (f u).isSome = true) : (fetch_children f us).isSome = true := by
  induction us with
  | nil => rfl
  | cons u us ih =>
    obtain ⟨l, hl⟩ := Option.isSome_iff_exists.mp (hall u (List.mem_cons_self u us))
    obtain ⟨r, hr⟩ :=
      Option.isSome_iff_exists.mp (ih (fun v hv => hall v (List.mem_cons_of_mem u hv)))
    unfold fetch_children
    rw [hl, hr]
    rfl

/-- With a measure that strictly decreases from every index to each of its
children, fuel one above the measure always suffices. -/
theorem fetch_terminates_of_depth (remote : Remote) (depth : String → Nat)
    (hdec : ∀ url resp, remote url = some resp → isIndexResp resp = true →
        ∀ u ∈ child_sitemap_urls resp, depth u < depth url) :
    ∀ (fuel : Nat) (url : String), depth url < fuel →
      (fetch_sitemap remote fuel url).isSome = true := by
  intro fuel
  induction fuel with
  | zero => intro url h; omega
  | succ n ih =>
    intro url h
    rw [fetch_sitemap_succ]
    cases hr : remote url with
    | none => rfl
    | some resp =>
      dsimp only
      by_cases hidx : isIndexResp resp = true
      · rw [if_pos hidx]
        apply fetch_children_isSome
        intro u hu
        exact ih u (by have := hdec url resp hr hidx u hu; omega)
      · rw [if_neg hidx]
        split
        · rfl
        · rfl

/-- C10 amended: recursive sitemap-index resolution terminates whenever
the remote's index-to-child reference structure admits a strictly
decreasing depth measure (in particular, for every acyclic, finite-depth
index tree); on a cyclic index it recurses without bound. -/
theorem c10_bounded_depth_terminates (remote : Remote) (depth : String → Nat)
    (hdec : ∀ url resp, remote url = some resp → isIndexResp resp = true →
        ∀ u ∈ child_sitemap_urls resp, depth u < depth url)
    (url : String) :
    ∃ arts, fetch_sitemap remote (depth url + 1) url = some arts :=
  Option.isSome_iff_exists.mp
    (fetch_terminates_of_depth remote depth hdec (depth url + 1) url (Nat.lt_succ_self _))

/-- C10 witness: a two-level acyclic index tree with the evident depth
measure terminates. -/
theorem c10_bounded_depth_terminates_witness :
    ∃ arts, fetch_sitemap c10wRemote (c10wDepth c10wIndexUrl + 1) c10wIndexUrl = some arts := by
  apply c10_bounded_depth_terminates
  intro url resp hresp hidx u hu
  unfold c10wRemote at hresp
  split at hresp
  · rename_i hI
    injection hresp with hresp
    subst hresp
    rw [show child_sitemap_urls c10wIndexResp = [c10wLeafUrl] from by decide] at hu
    rw [List.mem_singleton] at hu
    subst hu
    have h0 : c10wDepth c10wLeafUrl = 0 := by decide
    have h1 : c10wDepth url = 1 := by
      unfold c10wDepth
      rw [if_pos hI]
    rw [h0, h1]
    decide
  · split at hresp
    · injection hresp with hresp
      subst hresp
      exact absurd hidx (by decide)
    · exact Option.noConfusion hresp

/-! ## Helper lemmas for the orchestrator claims -/

theorem contains_true_of_mem {l : List String} {a : String} (h : a ∈ l) :
    l.contains a = true :=
  List.elem_eq_true_of_mem h

theorem contains_false_of_not_mem {l : List String} {a : String} (h : a ∉ l) :
    l.contains a = false := by
  show List.elem a l = false
  rw [List.elem_eq_mem]
  simp [h]

theorem stampArticle_url (site : Site) (a : Article) : (stampArticle site a).url = a.url := rfl

/-- On a list whose URLs are pairwise distinct, keep-first deduplication is
the identity. -/
theorem dedupGo_eq_self (l : List Article) :
    ∀ seen : List String, (∀ r ∈ l, r.url ∉ seen) → (l.map (·.url)).Nodup →
      dedupByUrlKeepFirst.go seen l = l := by
  induction l with
  | nil => intro seen _ _; rfl
  | cons r rs ih =>
    intro seen hseen hnd
    rw [List.map_cons] at hnd
    have hnd2 := List.nodup_cons.mp hnd
    unfold dedupByUrlKeepFirst.go
    rw [if_neg (hseen r (List.mem_cons_self r rs))]
    congr 1
    apply ih
    · intro q hq hmem
      rcases List.mem_cons.mp hmem with h1 | h2
      · exact hnd2.1 (h1 ▸ List.mem_map_of_mem (fun t => t.url) hq)
      · exact hseen q (List.mem_cons_of_mem _ hq) h2
    · exact hnd2.2

theorem dedup_eq_self (l : List Article) (h : (l.map (·.url)).Nodup) :
    dedupByUrlKeepFirst l = l :=
  dedupGo_eq_self l [] (by simp) h

/-! ## Claim C7 — one failed extraction among three new articles -/

/-- C7: when a site's sitemap yields three new articles (URLs fresh and
pairwise distinct over a duplicate-free store) and extraction fails for
exactly the second one while the other two succeed, the run completes with
exactly the two successful rows appended — the failure affects neither the
other articles nor the run. -/
theorem c7_one_failure_two_rows
    (remote : Remote) (site : Site) (store : List Article)
    (a1 a2 a3 e1 e3 : Article) (fuel cap : Nat)
    (hfetch : fetch_sitemap remote fuel site.sitemap = some [a1, a2, a3])
    (hcap : 3 ≤ cap)
    (hnodup : (store.map (·.url)).Nodup)
    (h1n : a1.url ∉ store.map (·.url))
    (h2n : a2.url ∉ store.map (·.url))
    (h3n : a3.url ∉ store.map (·.url))
    (hd13 : a1.url ≠ a3.url)
    (he1 : extract_article_info remote (stampArticle site a1) = some e1)
    (he2 : extract_article_info remote (stampArticle site a2) = none)
    (he3 : extract_article_info remote (stampArticle site a3) = some e3) :
    monitor_websites remote [site] fuel cap (some store) = some (some (store ++ [e1, e3])) := by
  have he1u : e1.url = a1.url := extract_preserves_url remote (stampArticle site a1) e1 he1
  have he3u : e3.url = a3.url := extract_preserves_url remote (stampArticle site a3) e3 he3
  have hp1 : ∀ x ∈ store, ¬x.url = (stampArticle site a1).url := by
    intro x hx h
    exact h1n (h ▸ List.mem_map_of_mem (fun t => t.url) hx)
  have hp2 : ∀ x ∈ store, ¬x.url = (stampArticle site a2).url := by
    intro x hx h
    exact h2n (h ▸ List.mem_map_of_mem (fun t => t.url) hx)
  have hp3 : ∀ x ∈ store, ¬x.url = (stampArticle site a3).url := by
    intro x hx h
    exact h3n (h ▸ List.mem_map_of_mem (fun t => t.url) hx)
  have hnd2 : ((store ++ [e1, e3]).map (·.url)).Nodup := by
    rw [List.map_append]
    apply List.Nodup.append hnodup
    · simp [he1u, he3u, hd13]
    · intro x hx hx2
      simp only [List.map_cons, List.map_nil, List.mem_cons, List.not_mem_nil, or_false,
        he1u, he3u] at hx2
      rcases hx2 with h | h
      · exact h1n (h ▸ hx)
      · exact h3n (h ▸ hx)
  have hstep : monitorSiteStep remote fuel cap (store.map (·.url), some store) site
      = some (store.map (·.url) ++ [e1.url, e3.url], some (store ++ [e1, e3])) := by
    unfold monitorSiteStep
    rw [hfetch]
    dsimp only
    rw [if_neg (by simp : ¬(([a1, a2, a3] : List Article).isEmpty = true))]
    rw [show List.filter (fun a => !((store.map (·.url)).contains a.url))
          (List.map (stampArticle site) [a1, a2, a3])
        = [stampArticle site a1, stampArticle site a2, stampArticle site a3] from by
      simp only [List.filter_cons, List.filter_nil, List.map_cons, List.map_nil,
        List.elem_eq_mem, List.mem_map, Bool.not_eq_true', decide_eq_false_iff_not,
        not_exists, not_and, List.contains_eq_any_beq, List.any_eq_true, beq_iff_eq,
        decide_eq_true_eq]
      rw [if_pos hp1, if_pos hp2, if_pos hp3]]
    rw [List.take_of_length_le (by simpa using hcap)]
    rw [if_neg (by simp : ¬(([stampArticle site a1, stampArticle site a2,
      stampArticle site a3] : List Article).isEmpty = true))]
    rw [show List.filterMap (extract_article_info remote)
          [stampArticle site a1, stampArticle site a2, stampArticle site a3] = [e1, e3] from by
      simp only [List.filterMap_cons, he1, he2, he3, List.filterMap_nil]]
    rw [if_neg (by simp : ¬(([e1, e3] : List Article).isEmpty = true))]
    unfold save_articles
    rw [if_neg (by simp : ¬(([e1, e3] : List Article).isEmpty = true))]
    dsimp only
    rw [show dedupByUrlKeepFirst (store ++ [e1, e3]) = store ++ [e1, e3] from
      dedup_eq_self _ hnd2]
    rfl
  show (monitorSiteStep remote fuel cap (store.map (·.url), some store) site).map (·.2)
    = some (some (store ++ [e1, e3]))
  rw [hstep]
  rfl

/-- C7 witness: three new articles, the middle one failing with a
connection error — exactly the two successes are appended. -/
theorem c7_one_failure_two_rows_witness :
    monitor_websites c7Remote [c7Site] 1 50 (some [])
      = some (some [stampArticle c7Site c7a1, stampArticle c7Site c7a3]) :=
  c7_one_failure_two_rows c7Remote c7Site [] c7a1 c7a2 c7a3
    (stampArticle c7Site c7a1) (stampArticle c7Site c7a3) 1 50
    (by decide) (by decide) (by decide) (by decide) (by decide) (by decide) (by decide)
    (by decide) (by decide) (by decide)

/-! ## Claim C3 — idempotence of a second run -/

/-- The per-site fold leaves the accumulator untouched when every
discovered article's URL is already known or its extraction fails. -/
theorem monitor_fold_no_op (remote : Remote) (fuel cap : Nat) (urls0 : List String)
    (st0 : FileState) (sites : List Site)
    (h : ∀ site ∈ sites, ∃ arts, fetch_sitemap remote fuel site.sitemap = some arts ∧
        ∀ a ∈ arts, a.url ∈ urls0 ∨ extract_article_info remote (stampArticle site a) = none) :
    sites.foldl (fun acc site => acc.bind (fun a => monitorSiteStep remote fuel cap a site))
      (some (urls0, st0)) = some (urls0, st0) := by
  induction sites with
  | nil => rfl
  | cons site rest ih =>
    rw [List.foldl_cons]
    obtain ⟨arts, hfetch, hall⟩ := h site (List.mem_cons_self site rest)
    have hstep : monitorSiteStep remote fuel cap (urls0, st0) site = some (urls0, st0) := by
      unfold monitorSiteStep
      rw [hfetch]
      dsimp only
      by_cases hemp : arts.isEmpty
      · rw [if_pos hemp]
      · rw [if_neg hemp]
        have hnone : ∀ s ∈ (List.filter (fun a => !(urls0.contains a.url))
            (List.map (stampArticle site) arts)).take cap,
            extract_article_info remote s = none := by
          intro s hs
          have hs2 := List.mem_of_mem_take hs
          have hs3 := List.mem_filter.mp hs2
          obtain ⟨a, ha, heq⟩ := List.mem_map.mp hs3.1
          subst heq
          rcases hall a ha with hin | hnone2
          · exfalso
            have hct : urls0.contains (stampArticle site a).url = true :=
              contains_true_of_mem hin
            rw [hct] at hs3
            exact Bool.noConfusion hs3.2
          · exact hnone2
        have hproc : (List.filterMap (extract_article_info remote)
            ((List.filter (fun a => !(urls0.contains a.url))
              (List.map (stampArticle site) arts)).take cap)) = [] :=
          List.filterMap_eq_nil_iff.mpr hnone
        by_cases hemp2 : ((List.filter (fun a => !(urls0.contains a.url))
            (List.map (stampArticle site) arts)).take cap).isEmpty
        · rw [if_pos hemp2]
        · rw [if_neg hemp2]
          rw [hproc]
          rw [if_pos (by decide : (([] : List Article).isEmpty) = true)]
          rw [List.map_nil, List.append_nil]
    have hbind : (some (urls0, st0)).bind (fun a => monitorSiteStep remote fuel cap a site)
        = some (urls0, st0) := hstep
    rw [hbind]
    exact ih (fun s hs => h s (List.mem_cons_of_mem site hs))

/-- C3 amended: a rerun of the crawl appends nothing and leaves the store
unchanged whenever every URL discovered is already in the loaded store or
deterministically fails extraction — which is what a completed first run
guarantees as long as the per-site cap did not truncate new articles. -/
theorem c3_second_run_no_op (remote : Remote) (sites : List Site) (fuel cap : Nat)
    (fs : FileState)
    (h : ∀ site ∈ sites, ∃ arts, fetch_sitemap remote fuel site.sitemap = some arts ∧
        ∀ a ∈ arts, a.url ∈ (load_existing_rows fs).map (·.url)
          ∨ extract_article_info remote (stampArticle site a) = none) :
    monitor_websites remote sites fuel cap fs = some fs := by
  show Option.map (fun x => x.2)
    (sites.foldl (fun acc site => acc.bind (fun a => monitorSiteStep remote fuel cap a site))
      (some ((load_existing_rows fs).map (·.url), fs))) = some fs
  rw [monitor_fold_no_op remote fuel cap ((load_existing_rows fs).map (·.url)) fs sites h]
  rfl

/-- C3 witness: the one discovered URL is already stored, so the second
run leaves the store untouched. -/
theorem c3_second_run_no_op_witness :
    monitor_websites c3wRemote [c3wSite] 1 50 (some [c3wRow]) = some (some [c3wRow]) := by
  apply c3_second_run_no_op
  intro site hsite
  rw [List.mem_singleton] at hsite
  subst hsite
  refine ⟨[c3wSitemapArt], by decide, ?_⟩
  intro a ha
  rw [List.mem_singleton] at ha
  subst ha
  left
  decide

set_option maxHeartbeats 2000000 in
/-- C3 counterexample: with 51 discovered articles and the default
per-site cap of 50, the first run stores only 50, so the second run over
the unchanged remote appends the 51st — the store changes. -/
theorem c3_second_run_appends_cex :
    monitor_websites c3Remote [c3Site] 1 50 c3FirstStore ≠ some c3FirstStore := by decide
